import Mathlib

/-!
Verification of the validation-and-harness layer of the winterfell STARK
examples: the `ProofError` / `AssertionError` taxonomies (air/src/errors.rs),
the parameter and trace-shape validators they are produced by, and the
`MulFib2Example` harness (examples/src/fibonacci/mulfib2/mod.rs).

Pure Rust functions are embedded as Lean functions; Rust panics become
`Option`; fallible Rust functions returning `Result` become `Except`.
`usize` values are embedded as `Nat` (no comparison here can overflow),
and the 128-bit base field as naturals reduced modulo the f128 prime.
-/

namespace Winterfell

/-- Boolean power-of-two test, the embedding of Rust's
`usize::is_power_of_two` (true exactly on 1, 2, 4, 8, ...).
Implemented by fuel-bounded halving so that it reduces in the kernel. -/
def pow2_aux : Nat → Nat → Bool
  | _, 0 => false
  | 0, _ => false
  | _ + 1, 1 => true
  | fuel + 1, n + 2 => (n + 2) % 2 == 0 && pow2_aux fuel ((n + 2) / 2)

/-- `is_power_of_two n` decides whether `n` is a power of two. -/
def is_power_of_two (n : Nat) : Bool := pow2_aux n n

theorem pow2_aux_iff (fuel n : Nat) (hn : n ≤ fuel) :
    pow2_aux fuel n = true ↔ ∃ k, n = 2 ^ k := by
  induction fuel generalizing n with
  | zero =>
    interval_cases n
    simp only [pow2_aux]
    constructor
    · intro h; exact absurd h (by simp)
    · rintro ⟨k, hk⟩; exact absurd hk.symm (Nat.pos_of_isPowerOfTwo ⟨k, rfl⟩).ne'
  | succ fuel ih =>
    match n with
    | 0 =>
      simp only [pow2_aux]
      constructor
      · intro h; exact absurd h (by simp)
      · rintro ⟨k, hk⟩; exact absurd hk.symm (Nat.pos_of_isPowerOfTwo ⟨k, rfl⟩).ne'
    | 1 =>
      simp only [pow2_aux]
      exact ⟨fun _ => ⟨0, rfl⟩, fun _ => trivial⟩
    | n + 2 =>
      have hhalf : (n + 2) / 2 ≤ fuel := by omega
      simp only [pow2_aux, Bool.and_eq_true, beq_iff_eq]
      rw [ih _ hhalf]
      constructor
      · rintro ⟨heven, k, hk⟩
        refine ⟨k + 1, ?_⟩
        have : (n + 2) = 2 * ((n + 2) / 2) := by omega
        rw [this, hk, pow_succ]; ring
      · rintro ⟨k, hk⟩
        match k with
        | 0 => omega
        | k + 1 =>
          have h2 : n + 2 = 2 * 2 ^ k := by rw [hk, pow_succ]; ring
          exact ⟨by omega, k, by omega⟩

theorem is_power_of_two_iff (n : Nat) :
    is_power_of_two n = true ↔ ∃ k, n = 2 ^ k :=
  pow2_aux_iff n n le_rfl

-- PROTOCOL PARAMETER BOUNDS
-- ===========================================================================

/-- Modelled from the spec: global bound `MAX_NUM_QUERIES` referenced by
`ParameterValidator` (the constant declaration is outside the provided
sources; value as in the repository's air crate). -/
def MAX_NUM_QUERIES : Nat := 255

/-- Modelled from the spec: global bound `MIN_BLOWUP_FACTOR`. -/
def MIN_BLOWUP_FACTOR : Nat := 2

/-- Modelled from the spec: global bound `MAX_BLOWUP_FACTOR`. -/
def MAX_BLOWUP_FACTOR : Nat := 128

/-- Modelled from the spec: global bound `MAX_GRINDING_FACTOR`. -/
def MAX_GRINDING_FACTOR : Nat := 32

/-- Modelled from the spec: global bound `FRI_MIN_FOLDING_FACTOR`. -/
def FRI_MIN_FOLDING_FACTOR : Nat := 2

/-- Modelled from the spec: global bound `FRI_MAX_FOLDING_FACTOR`. -/
def FRI_MAX_FOLDING_FACTOR : Nat := 16

/-- Modelled from the spec: global bound `FRI_MAX_REMAINDER_DEGREE`. -/
def FRI_MAX_REMAINDER_DEGREE : Nat := 255

/-- The bundle of protocol security parameters (spec §3 `ProofOptions`).
`grinding_factor` is a `u32` in the source; all fields are embedded as
`Nat` since validation only compares them against the bounds above. -/
structure ProofOptions where
  num_queries : Nat
  blowup_factor : Nat
  grinding_factor : Nat
  fri_folding_factor : Nat
  fri_remainder_max_degree : Nat
deriving DecidableEq, Repr

/-- `ProofError` from air/src/errors.rs: one variant per out-of-bounds
parameter, each carrying the offending value. -/
inductive ProofError where
  | QueriesNumber (num_queries : Nat)
  | BlowupFactor (blowup_factor : Nat)
  | GrindingFactor (grinding_factor : Nat)
  | FoldingFactor (fri_folding_factor : Nat)
  | FriRemainder (fri_remainder_max_degree : Nat)
deriving DecidableEq, Repr

/-- Bound for `num_queries`: `0 < num_queries < MAX_NUM_QUERIES`. -/
def queries_ok (o : ProofOptions) : Bool :=
  decide (0 < o.num_queries) && decide (o.num_queries < MAX_NUM_QUERIES)

/-- Bound for `blowup_factor`: power of two within
`[MIN_BLOWUP_FACTOR, MAX_BLOWUP_FACTOR]`. -/
def blowup_ok (o : ProofOptions) : Bool :=
  is_power_of_two o.blowup_factor
    && decide (MIN_BLOWUP_FACTOR ≤ o.blowup_factor)
    && decide (o.blowup_factor ≤ MAX_BLOWUP_FACTOR)

/-- Bound for `grinding_factor`: at most `MAX_GRINDING_FACTOR`. -/
def grinding_ok (o : ProofOptions) : Bool :=
  decide (o.grinding_factor ≤ MAX_GRINDING_FACTOR)

/-- Bound for `fri_folding_factor`: power of two within
`[FRI_MIN_FOLDING_FACTOR, FRI_MAX_FOLDING_FACTOR]`. -/
def folding_ok (o : ProofOptions) : Bool :=
  is_power_of_two o.fri_folding_factor
    && decide (FRI_MIN_FOLDING_FACTOR ≤ o.fri_folding_factor)
    && decide (o.fri_folding_factor ≤ FRI_MAX_FOLDING_FACTOR)

/-- Bound for `fri_remainder_max_degree`: of the form `2^k - 1` and at
most `FRI_MAX_REMAINDER_DEGREE`. -/
def remainder_ok (o : ProofOptions) : Bool :=
  is_power_of_two (o.fri_remainder_max_degree + 1)
    && decide (o.fri_remainder_max_degree ≤ FRI_MAX_REMAINDER_DEGREE)

/-- Modelled from the spec: `ParameterValidator.validate` (spec §4.1);
the validating constructor itself is outside the provided sources, which
contain only the `ProofError` type it produces. Checks the five bounds in
the fixed order queries, blowup, grinding, folding, remainder, and returns
the error variant of the first failing check, carrying that field's
value. -/
def validate (o : ProofOptions) : Except ProofError Unit :=
  if !(queries_ok o) then .error (.QueriesNumber o.num_queries)
  else if !(blowup_ok o) then .error (.BlowupFactor o.blowup_factor)
  else if !(grinding_ok o) then .error (.GrindingFactor o.grinding_factor)
  else if !(folding_ok o) then .error (.FoldingFactor o.fri_folding_factor)
  else if !(remainder_ok o) then .error (.FriRemainder o.fri_remainder_max_degree)
  else .ok ()

-- ASSERTIONS AGAINST TRACE SHAPES
-- ===========================================================================

/-- `AssertionError` from air/src/errors.rs: the four structural
violations of an assertion checked against a trace, with the numeric
payloads exactly as declared there (`TraceWidthTooShort(usize, usize)`,
`TraceLengthNotPowerOfTwo(usize)`, `TraceLengthTooShort(usize, usize)`,
`TraceLengthNotExact(usize, usize)`). -/
inductive AssertionError where
  | TraceWidthTooShort (expected actual : Nat)
  | TraceLengthNotPowerOfTwo (actual : Nat)
  | TraceLengthTooShort (expected actual : Nat)
  | TraceLengthNotExact (expected actual : Nat)
deriving DecidableEq, Repr

/-- The expected-value payload of an `AssertionError`, when the variant
declares one (first component of a two-payload variant). -/
def expected_value : AssertionError → Option Nat
  | .TraceWidthTooShort e _ => some e
  | .TraceLengthNotPowerOfTwo _ => none
  | .TraceLengthTooShort e _ => some e
  | .TraceLengthNotExact e _ => some e

/-- The actual-value payload of an `AssertionError` (last payload of
every variant). -/
def actual_value : AssertionError → Nat
  | .TraceWidthTooShort _ a => a
  | .TraceLengthNotPowerOfTwo a => a
  | .TraceLengthTooShort _ a => a
  | .TraceLengthNotExact _ a => a

/-- Modelled from the spec: the `Assertion` shape (spec §3) referenced by
`TraceShapeValidator`; the declaring module is outside the provided
sources. A trace column, a first asserted step, a stride between asserted
steps, and the number of asserted values; an assertion with more than one
value is a whole-trace `Sequence` assertion whose implied trace length is
`stride * num_values`. -/
structure Assertion where
  column : Nat
  first_step : Nat
  stride : Nat
  num_values : Nat
deriving DecidableEq, Repr

/-- Trace length implied by a `Sequence` assertion's own stride and step
count (spec §4.2). -/
def Assertion.implied_length (a : Assertion) : Nat := a.stride * a.num_values

/-- Modelled from the spec: `TraceShapeValidator.check` (spec §4.2); the
checking function is outside the provided sources, which contain only the
`AssertionError` type it produces. Precedence: width first, then the
power-of-two length check, then the exact-length check for whole-trace
assertions (else the lower-bound check). -/
def check (a : Assertion) (trace_width trace_length : Nat) :
    Except AssertionError Unit :=
  if trace_width ≤ a.column then
    .error (.TraceWidthTooShort (a.column + 1) trace_width)
  else if is_power_of_two trace_length = false then
    .error (.TraceLengthNotPowerOfTwo trace_length)
  else if 1 < a.num_values then
    if trace_length ≠ a.implied_length then
      .error (.TraceLengthNotExact a.implied_length trace_length)
    else .ok ()
  else
    if trace_length ≤ a.first_step then
      .error (.TraceLengthTooShort (a.first_step + 1) trace_length)
    else .ok ()

-- THE f128 BASE FIELD AND THE REFERENCE COMPUTATION
-- ===========================================================================

/-- Modulus of the 128-bit base field `f128::BaseElement` used by the
mulfib2 example: `2^128 - 45 * 2^40 + 1`. -/
def f128_MODULUS : Nat := 2 ^ 128 - 45 * 2 ^ 40 + 1

/-- Addition in the f128 base field, on naturals reduced mod the prime. -/
def addF (a b : Nat) : Nat := (a + b) % f128_MODULUS

/-- Multiplication in the f128 base field. -/
def mulF (a b : Nat) : Nat := (a * b) % f128_MODULUS

/-- Modelled from the spec: the collaborator-provided reference
computation deriving the expected public input (spec §4.3); its source is
outside the provided files. Iterates the multiplicative Fibonacci
recurrence (two consecutive terms; each new term is the field product of
the previous two) starting from terms `1` and `2`. -/
def mulfib_pair : Nat → Nat × Nat
  | 0 => (1, 2)
  | n + 1 => ((mulfib_pair n).2, mulF (mulfib_pair n).1 (mulfib_pair n).2)

/-- Modelled from the spec: `compute_mulfib_term`, the expected result of
the mulfib2 computation for a given sequence length. -/
def compute_mulfib_term (n : Nat) : Nat := (mulfib_pair n).1

-- THE HASH SELECTOR AND THE ENGINE
-- ===========================================================================

/-- Modelled from the spec: the `HashFunction` selector chosen by the
configuration layer (spec §6); the enum declaration is outside the
provided sources (variants as in the repository's examples crate). The
`get_example` match in mulfib2/mod.rs names the first three and sends the
rest to a catch-all arm. -/
inductive HashFunction where
  | Blake3_192
  | Blake3_256
  | Sha3_256
  | Rp64_256
  | RpJive64_256
deriving DecidableEq, Repr

/-- Modelled from the spec: the engine's opaque proof artifact (spec §6).
It embeds the options used at prove time (`proof.options()` in
mulfib2/mod.rs reads them back) and the statement proved, here the
mulFib2 sequence length the trace was built from. -/
structure StarkProof where
  options : ProofOptions
  sequence_length : Nat
deriving DecidableEq, Repr

/-- Modelled from the spec: the collaborator-owned `VerifierError`,
treated by this layer strictly as a boolean failure signal (spec §7). -/
inductive VerifierError where
  | failed
deriving DecidableEq, Repr

/-- Modelled from the spec: the engine's verification routine
`engine.verify(proof, public_input, acceptable_options)` (spec §6),
which is outside the provided sources. Per the completeness and
soundness contracts (spec §4.3 and glossary), it succeeds exactly when
the proof's self-declared options belong to the acceptable set and the
public input is the true result of the proved statement. -/
def engine_verify (proof : StarkProof) (pub_input : Nat)
    (acceptable : List ProofOptions) : Except VerifierError Unit :=
  if proof.options ∈ acceptable ∧ pub_input = compute_mulfib_term proof.sequence_length
  then .ok () else .error .failed

/-- The argument bundle of one call to the engine's verification
routine. -/
structure EngineCall where
  proof : StarkProof
  pub_input : Nat
  acceptable_options : List ProofOptions
deriving DecidableEq, Repr

/-- Runs an `EngineCall` through the engine's verification routine. -/
def run_call (c : EngineCall) : Except VerifierError Unit :=
  engine_verify c.proof c.pub_input c.acceptable_options

-- THE MULFIB2 EXAMPLE HARNESS (examples/src/fibonacci/mulfib2/mod.rs)
-- ===========================================================================

/-- `MulFib2Example` from mulfib2/mod.rs: stored options, sequence
length, expected result, and the hash selector (a phantom type parameter
in the source, embedded here as a stored value). -/
structure MulFib2Example where
  options : ProofOptions
  sequence_length : Nat
  result : Nat
  hasher : HashFunction
deriving DecidableEq, Repr

/-- `MulFib2Example::new` (mulfib2/mod.rs lines 56-74). The Rust
function asserts `sequence_length.is_power_of_two()` before anything
else and panics otherwise; the panic is embedded as `none`, and the
reference computation and construction happen only in the `some`
branch. -/
def MulFib2Example.new (h : HashFunction) (sequence_length : Nat)
    (options : ProofOptions) : Option MulFib2Example :=
  if is_power_of_two sequence_length then
    some { options := options, sequence_length := sequence_length,
           result := compute_mulfib_term sequence_length, hasher := h }
  else
    none

/-- `MulFib2Example::prove` (mulfib2/mod.rs lines 84-111): delegates
trace construction and proving to the engine with the stored sequence
length and stored options; the artifact embeds both. -/
def MulFib2Example.prove (e : MulFib2Example) : StarkProof :=
  { options := e.options, sequence_length := e.sequence_length }

/-- The engine call made by `MulFib2Example::verify` (mulfib2/mod.rs
lines 113-121): the proof itself, the harness's stored `result` as
public input, and a singleton acceptable-options set holding the
options embedded in the proof. -/
def MulFib2Example.verify_call (e : MulFib2Example) (proof : StarkProof) :
    EngineCall :=
  { proof := proof, pub_input := e.result, acceptable_options := [proof.options] }

/-- `MulFib2Example::verify` (mulfib2/mod.rs lines 113-121). -/
def MulFib2Example.verify (e : MulFib2Example) (proof : StarkProof) :
    Except VerifierError Unit :=
  run_call (e.verify_call proof)

/-- The engine call made by `MulFib2Example::verify_with_wrong_inputs`
(mulfib2/mod.rs lines 123-131): as `verify_call`, but the public input
is `self.result + BaseElement::ONE`. -/
def MulFib2Example.verify_wrong_call (e : MulFib2Example) (proof : StarkProof) :
    EngineCall :=
  { proof := proof, pub_input := addF e.result 1,
    acceptable_options := [proof.options] }

/-- `MulFib2Example::verify_with_wrong_inputs` (mulfib2/mod.rs lines
123-131). -/
def MulFib2Example.verify_with_wrong_inputs (e : MulFib2Example)
    (proof : StarkProof) : Except VerifierError Unit :=
  run_call (e.verify_wrong_call proof)

/-- `get_example` (mulfib2/mod.rs lines 29-47), after the configuration
layer has resolved the proof options and hash selector (the
`to_proof_options` call, outside the provided sources). Matches on the
hash selector: the three supported backends construct the example
(`MulFib2Example::new`, whose panic possibility is the inner `Option`),
every other selector hits the catch-all error arm. -/
def get_example (hash_fn : HashFunction) (options : ProofOptions)
    (sequence_length : Nat) : Except String (Option MulFib2Example) :=
  match hash_fn with
  | .Blake3_192 => .ok (MulFib2Example.new .Blake3_192 sequence_length options)
  | .Blake3_256 => .ok (MulFib2Example.new .Blake3_256 sequence_length options)
  | .Sha3_256 => .ok (MulFib2Example.new .Sha3_256 sequence_length options)
  | _ => .error "The specified hash function cannot be used with this example."

-- THEOREMS
-- ===========================================================================

theorem queries_ok_iff (o : ProofOptions) :
    queries_ok o = true ↔ 0 < o.num_queries ∧ o.num_queries < MAX_NUM_QUERIES := by
  simp [queries_ok]

theorem blowup_ok_iff (o : ProofOptions) :
    blowup_ok o = true ↔
      (∃ k, o.blowup_factor = 2 ^ k) ∧
        MIN_BLOWUP_FACTOR ≤ o.blowup_factor ∧ o.blowup_factor ≤ MAX_BLOWUP_FACTOR := by
  simp [blowup_ok, is_power_of_two_iff, and_assoc]

theorem grinding_ok_iff (o : ProofOptions) :
    grinding_ok o = true ↔ o.grinding_factor ≤ MAX_GRINDING_FACTOR := by
  simp [grinding_ok]

theorem folding_ok_iff (o : ProofOptions) :
    folding_ok o = true ↔
      (∃ k, o.fri_folding_factor = 2 ^ k) ∧
        FRI_MIN_FOLDING_FACTOR ≤ o.fri_folding_factor ∧
          o.fri_folding_factor ≤ FRI_MAX_FOLDING_FACTOR := by
  simp [folding_ok, is_power_of_two_iff, and_assoc]

theorem remainder_ok_iff (o : ProofOptions) :
    remainder_ok o = true ↔
      (∃ k, o.fri_remainder_max_degree = 2 ^ k - 1) ∧
        o.fri_remainder_max_degree ≤ FRI_MAX_REMAINDER_DEGREE := by
  simp only [remainder_ok, Bool.and_eq_true, decide_eq_true_eq, is_power_of_two_iff]
  constructor
  · rintro ⟨⟨k, hk⟩, hle⟩
    exact ⟨⟨k, by omega⟩, hle⟩
  · rintro ⟨⟨k, hk⟩, hle⟩
    refine ⟨⟨k, ?_⟩, hle⟩
    have : 1 ≤ 2 ^ k := Nat.one_le_two_pow
    omega

theorem validate_eq_ok_iff (o : ProofOptions) :
    validate o = .ok () ↔
      (queries_ok o = true ∧ blowup_ok o = true ∧ grinding_ok o = true ∧
       folding_ok o = true ∧ remainder_ok o = true) := by
  unfold validate
  cases hq : queries_ok o <;> cases hb : blowup_ok o <;>
    cases hg : grinding_ok o <;> cases hf : folding_ok o <;>
      cases hr : remainder_ok o <;> simp

/-- C1: `validate` succeeds exactly when all five `ProofOptions` fields
satisfy their bounds (`0 < num_queries < MAX_NUM_QUERIES`; power-of-two
`blowup_factor` in `[MIN_BLOWUP_FACTOR, MAX_BLOWUP_FACTOR]`;
`grinding_factor ≤ MAX_GRINDING_FACTOR`; power-of-two
`fri_folding_factor` in `[FRI_MIN_FOLDING_FACTOR, FRI_MAX_FOLDING_FACTOR]`;
`fri_remainder_max_degree` of the form `2^k - 1` and at most
`FRI_MAX_REMAINDER_DEGREE`), and on any invalid input it returns the
`ProofError` variant of the earliest-listed invalid field in the order
queries, blowup, grinding, folding, remainder, carrying that field's
value. -/
theorem validate_iff_bounds_and_precedence (o : ProofOptions) :
    (validate o = .ok () ↔
      ((0 < o.num_queries ∧ o.num_queries < MAX_NUM_QUERIES) ∧
       ((∃ k, o.blowup_factor = 2 ^ k) ∧
         MIN_BLOWUP_FACTOR ≤ o.blowup_factor ∧ o.blowup_factor ≤ MAX_BLOWUP_FACTOR) ∧
       (o.grinding_factor ≤ MAX_GRINDING_FACTOR) ∧
       ((∃ k, o.fri_folding_factor = 2 ^ k) ∧
         FRI_MIN_FOLDING_FACTOR ≤ o.fri_folding_factor ∧
           o.fri_folding_factor ≤ FRI_MAX_FOLDING_FACTOR) ∧
       ((∃ k, o.fri_remainder_max_degree = 2 ^ k - 1) ∧
         o.fri_remainder_max_degree ≤ FRI_MAX_REMAINDER_DEGREE))) ∧
    (queries_ok o = false →
      validate o = .error (.QueriesNumber o.num_queries)) ∧
    (queries_ok o = true → blowup_ok o = false →
      validate o = .error (.BlowupFactor o.blowup_factor)) ∧
    (queries_ok o = true → blowup_ok o = true → grinding_ok o = false →
      validate o = .error (.GrindingFactor o.grinding_factor)) ∧
    (queries_ok o = true → blowup_ok o = true → grinding_ok o = true →
      folding_ok o = false →
      validate o = .error (.FoldingFactor o.fri_folding_factor)) ∧
    (queries_ok o = true → blowup_ok o = true → grinding_ok o = true →
      folding_ok o = true → remainder_ok o = false →
      validate o = .error (.FriRemainder o.fri_remainder_max_degree)) := by
  refine ⟨?_, ?_, ?_, ?_, ?_, ?_⟩
  · rw [validate_eq_ok_iff, queries_ok_iff, blowup_ok_iff, grinding_ok_iff,
      folding_ok_iff, remainder_ok_iff]
  · intro hq; unfold validate; simp [hq]
  · intro hq hb; unfold validate; simp [hq, hb]
  · intro hq hb hg; unfold validate; simp [hq, hb, hg]
  · intro hq hb hg hf; unfold validate; simp [hq, hb, hg, hf]
  · intro hq hb hg hf hr; unfold validate; simp [hq, hb, hg, hf, hr]

/-- Witness for C1 at concrete inputs: options `⟨28, 8, 16, 4, 7⟩` are
accepted, and on `⟨28, 3, 100, 3, 8⟩` (blowup, grinding, folding and
remainder all invalid at once) the earliest-listed invalid field wins:
`BlowupFactor 3`. -/
theorem validate_iff_bounds_and_precedence_witness :
    validate ⟨28, 8, 16, 4, 7⟩ = .ok () ∧
      validate ⟨28, 3, 100, 3, 8⟩ = .error (.BlowupFactor 3) :=
  ⟨(validate_iff_bounds_and_precedence ⟨28, 8, 16, 4, 7⟩).1.mpr
      ⟨⟨by decide, by decide⟩, ⟨⟨3, by decide⟩, by decide, by decide⟩, by decide,
        ⟨⟨2, by decide⟩, by decide, by decide⟩, ⟨3, by decide⟩, by decide⟩,
    (validate_iff_bounds_and_precedence ⟨28, 3, 100, 3, 8⟩).2.2.1
      (by decide) (by decide)⟩

/-- C2: for a harness built with a power-of-two sequence length and
options accepted by `validate`, proving and then verifying with the
harness's own stored result succeeds. -/
theorem prove_then_verify_ok (h : HashFunction) (n : Nat) (o : ProofOptions)
    (e : MulFib2Example)
    (hn : is_power_of_two n = true) (_ho : validate o = .ok ())
    (he : MulFib2Example.new h n o = some e) :
    e.verify e.prove = .ok () := by
  unfold MulFib2Example.new at he
  rw [if_pos hn] at he
  cases he
  simp [MulFib2Example.verify, MulFib2Example.verify_call, MulFib2Example.prove,
    run_call, engine_verify]

/-- Witness for C2: the harness for sequence length `8` with options
`⟨28, 8, 16, 4, 7⟩` round-trips. -/
theorem prove_then_verify_ok_witness :
    MulFib2Example.verify
        ⟨⟨28, 8, 16, 4, 7⟩, 8, 2097152, HashFunction.Blake3_256⟩
        (MulFib2Example.prove
          ⟨⟨28, 8, 16, 4, 7⟩, 8, 2097152, HashFunction.Blake3_256⟩) = .ok () :=
  prove_then_verify_ok HashFunction.Blake3_256 8 ⟨28, 8, 16, 4, 7⟩
    ⟨⟨28, 8, 16, 4, 7⟩, 8, 2097152, HashFunction.Blake3_256⟩
    rfl rfl rfl

/-- C3: for every proof, the engine call made by `verify` carries a
singleton acceptable-options set holding exactly the options embedded in
the proof (not the harness's stored options), and the harness's stored
`result` as public input; `verify` is exactly the engine run on that
call. -/
theorem verify_call_shape (e : MulFib2Example) (p : StarkProof) :
    (e.verify_call p).acceptable_options = [p.options] ∧
      (e.verify_call p).pub_input = e.result ∧
      (e.verify_call p).proof = p ∧
      e.verify p = run_call (e.verify_call p) :=
  ⟨rfl, rfl, rfl, rfl⟩

/-- C4: for every proof, `verify_with_wrong_inputs` makes the same
engine call as `verify` — same proof, same acceptable-options
construction, same verification routine — except the public input is the
stored result plus one (field addition). -/
theorem verify_wrong_call_shape (e : MulFib2Example) (p : StarkProof) :
    (e.verify_wrong_call p).proof = (e.verify_call p).proof ∧
      (e.verify_wrong_call p).acceptable_options =
        (e.verify_call p).acceptable_options ∧
      (e.verify_wrong_call p).pub_input = addF e.result 1 ∧
      e.verify_with_wrong_inputs p = run_call (e.verify_wrong_call p) :=
  ⟨rfl, rfl, rfl, rfl⟩

/-- C5 counterexample: the `TraceLengthNotPowerOfTwo` variant of
`AssertionError` (air/src/errors.rs line 22) declares a single `usize`
payload — the actual trace length — so the value built from trace length
`7` carries no expected value, refuting "all four variants carry both
the expected and the actual numeric values". -/
theorem assertion_error_missing_expected :
    (expected_value (AssertionError.TraceLengthNotPowerOfTwo 7)).isSome = false :=
  rfl

/-- C5 amended: every `AssertionError` variant carries the actual value
of the violated condition, and every variant except
`TraceLengthNotPowerOfTwo` also carries the expected value;
`TraceLengthNotPowerOfTwo` carries only the actual trace length. -/
theorem assertion_error_payloads (e : AssertionError) :
    (expected_value e = none ↔
      e = AssertionError.TraceLengthNotPowerOfTwo (actual_value e)) := by
  cases e <;> simp [expected_value, actual_value]

/-- C6: an assertion referencing column `c` checked against a trace of
width `w ≤ c` yields `TraceWidthTooShort (c + 1) w`, whatever the trace
length and the rest of the assertion — the width check comes before all
other checks. -/
theorem check_width_first (a : Assertion) (w L : Nat) (hw : w ≤ a.column) :
    check a w L = .error (.TraceWidthTooShort (a.column + 1) w) := by
  unfold check
  rw [if_pos hw]

/-- Witness for C6: column `3` against width `2`, with a trace length
(`7`) that is itself invalid — the width error still wins. -/
theorem check_width_first_witness :
    check ⟨3, 0, 4, 5⟩ 2 7 = .error (.TraceWidthTooShort 4 2) :=
  check_width_first ⟨3, 0, 4, 5⟩ 2 7 (by decide)

/-- C7: once the width check passes, a trace length that is not a power
of two yields `TraceLengthNotPowerOfTwo L` for every assertion,
regardless of the assertion's own validity. -/
theorem check_length_pow2 (a : Assertion) (w L : Nat)
    (hw : a.column < w) (hL : is_power_of_two L = false) :
    check a w L = .error (.TraceLengthNotPowerOfTwo L) := by
  unfold check
  rw [if_neg (by omega), if_pos hL]

/-- Witness for C7: trace length `7` with a sequence assertion whose own
implied length (`20`) is also inconsistent — the power-of-two error
still wins. -/
theorem check_length_pow2_witness :
    check ⟨0, 0, 4, 5⟩ 1 7 = .error (.TraceLengthNotPowerOfTwo 7) :=
  check_length_pow2 ⟨0, 0, 4, 5⟩ 1 7 (by decide) rfl

/-- C8: a whole-trace (`Sequence`) assertion demands that the trace
length equal exactly the length implied by its own stride and step
count: any mismatch — including an actual trace longer than implied —
yields `TraceLengthNotExact implied actual`. -/
theorem check_sequence_exact (a : Assertion) (w L : Nat)
    (hw : a.column < w) (hL : is_power_of_two L = true)
    (hseq : 1 < a.num_values) (hne : L ≠ a.implied_length) :
    check a w L = .error (.TraceLengthNotExact a.implied_length L) := by
  unfold check
  rw [if_neg (by omega), if_neg (by simp [hL]), if_pos hseq, if_pos hne]

/-- Witness for C8: a sequence assertion implying length `16` (stride
`8`, `2` values) against an actual trace length of `32` — longer than
implied — yields `TraceLengthNotExact 16 32`. -/
theorem check_sequence_exact_witness :
    check ⟨0, 0, 8, 2⟩ 1 32 = .error (.TraceLengthNotExact 16 32) :=
  check_sequence_exact ⟨0, 0, 8, 2⟩ 1 32 (by decide) rfl (by decide) (by decide)

/-- C9: `MulFib2Example::new` succeeds on sequence length `8`, aborts
(modelled as `none`) on `7` whatever the options — the power-of-two
assertion runs before anything else, so no other effect is observable —
and under the power-of-two precondition the abort branch is
unreachable. -/
theorem new_pow2_precondition (h : HashFunction) (o : ProofOptions) :
    (MulFib2Example.new h 8 o).isSome = true ∧
      MulFib2Example.new h 7 o = none ∧
      (∀ n, is_power_of_two n = true → (MulFib2Example.new h n o).isSome = true) ∧
      (∀ n, is_power_of_two n = false → MulFib2Example.new h n o = none) := by
  refine ⟨rfl, rfl, ?_, ?_⟩
  · intro n hn
    unfold MulFib2Example.new
    rw [if_pos hn]
    rfl
  · intro n hn
    unfold MulFib2Example.new
    rw [if_neg (by simp [hn])]

/-- Witness for C9 at a concrete hash selector and options bundle. -/
theorem new_pow2_precondition_witness :
    (MulFib2Example.new HashFunction.Sha3_256 8 ⟨28, 8, 16, 4, 7⟩).isSome = true ∧
      MulFib2Example.new HashFunction.Sha3_256 7 ⟨28, 8, 16, 4, 7⟩ = none ∧
      (MulFib2Example.new HashFunction.Sha3_256 16 ⟨28, 8, 16, 4, 7⟩).isSome = true ∧
      MulFib2Example.new HashFunction.Sha3_256 12 ⟨28, 8, 16, 4, 7⟩ = none :=
  ⟨(new_pow2_precondition HashFunction.Sha3_256 ⟨28, 8, 16, 4, 7⟩).1,
    (new_pow2_precondition HashFunction.Sha3_256 ⟨28, 8, 16, 4, 7⟩).2.1,
    (new_pow2_precondition HashFunction.Sha3_256 ⟨28, 8, 16, 4, 7⟩).2.2.1 16 rfl,
    (new_pow2_precondition HashFunction.Sha3_256 ⟨28, 8, 16, 4, 7⟩).2.2.2 12 rfl⟩

/-- C10: `get_example` returns `Ok` with a constructed example exactly
for the `Blake3_192`, `Blake3_256` and `Sha3_256` selectors, and returns
the fixed error message for every other selector. -/
theorem get_example_hash_branches (h : HashFunction) (o : ProofOptions) (n : Nat) :
    ((h = .Blake3_192 ∨ h = .Blake3_256 ∨ h = .Sha3_256) →
        get_example h o n = .ok (MulFib2Example.new h n o)) ∧
      (h ≠ .Blake3_192 ∧ h ≠ .Blake3_256 ∧ h ≠ .Sha3_256 →
        get_example h o n =
          .error "The specified hash function cannot be used with this example.") := by
  constructor
  · rintro (rfl | rfl | rfl) <;> rfl
  · rintro ⟨h1, h2, h3⟩
    cases h with
    | Blake3_192 => exact absurd rfl h1
    | Blake3_256 => exact absurd rfl h2
    | Sha3_256 => exact absurd rfl h3
    | Rp64_256 => rfl
    | RpJive64_256 => rfl

/-- Witness for C10: `Blake3_192` is accepted, `Rp64_256` is rejected
with the fixed message. -/
theorem get_example_hash_branches_witness :
    get_example HashFunction.Blake3_192 ⟨28, 8, 16, 4, 7⟩ 8 =
        .ok (MulFib2Example.new HashFunction.Blake3_192 8 ⟨28, 8, 16, 4, 7⟩) ∧
      get_example HashFunction.Rp64_256 ⟨28, 8, 16, 4, 7⟩ 8 =
        .error "The specified hash function cannot be used with this example." :=
  ⟨(get_example_hash_branches HashFunction.Blake3_192 ⟨28, 8, 16, 4, 7⟩ 8).1
      (Or.inl rfl),
    (get_example_hash_branches HashFunction.Rp64_256 ⟨28, 8, 16, 4, 7⟩ 8).2
      ⟨by decide, by decide, by decide⟩⟩

end Winterfell
